import Mathlib

/-!
Shallow embedding of the GridFS-backed file-serving subsystem of the
cleomusic backend: the object-store adapter (src/unnamed/part_010, the
gridfs utility module) and the range-streaming HTTP handlers
(src/routes/auth.js, the file router at lines 776-932: HEAD, GET and
DELETE on /:fileId).

JavaScript numbers that can be NaN are modelled as `Option Int`
(`none` = NaN); JS comparison operators on NaN are false, and
arithmetic propagates NaN.  Byte blobs are `List Nat`.  The GridFS
driver is modelled at the level of its documented contract: files are
stored whole, split into fixed-size chunks, and a download stream with
start/end options emits the chunk documents trimmed to the requested
window.
-/

/-- JavaScript number restricted to the integral values this code
produces; `none` models NaN (the result of parseInt on a non-numeric
string). -/
abbrev JsNum := Option Int

/-- JavaScript addition: NaN propagates. -/
def jsAdd : JsNum → JsNum → JsNum
  | some a, some b => some (a + b)
  | _, _ => none

/-- JavaScript subtraction: NaN propagates. -/
def jsSub : JsNum → JsNum → JsNum
  | some a, some b => some (a - b)
  | _, _ => none

/-- JavaScript `x >= y`: false whenever either side is NaN. -/
def jsGe : JsNum → JsNum → Bool
  | some x, some y => decide (y ≤ x)
  | _, _ => false

/-- JavaScript `x > y`: false whenever either side is NaN. -/
def jsGt : JsNum → JsNum → Bool
  | some x, some y => decide (y < x)
  | _, _ => false

/-- Decimal digit character for a value below ten. -/
def digitChar (d : Nat) : Char :=
  if d = 0 then '0' else if d = 1 then '1' else if d = 2 then '2'
  else if d = 3 then '3' else if d = 4 then '4' else if d = 5 then '5'
  else if d = 6 then '6' else if d = 7 then '7' else if d = 8 then '8'
  else '9'

/-- Numeric value of a digit character. -/
def digitVal (c : Char) : Nat := c.toNat - 48

/-- Value of a big-endian list of decimal digit characters. -/
def digitsToNat (l : List Char) : Nat :=
  l.foldl (fun a c => 10 * a + digitVal c) 0

/-- Decimal digits of a natural number, most significant first,
prepended to an accumulator; fuel-based structural recursion (any
fuel at least the number is enough, and the rendering functions call
it with the number itself as fuel). -/
def natDecimalAux (fuel n : Nat) (acc : List Char) : List Char :=
  match fuel with
  | 0 => digitChar (n % 10) :: acc
  | fuel + 1 =>
    if n < 10 then digitChar n :: acc
    else natDecimalAux fuel (n / 10) (digitChar (n % 10) :: acc)

/-- Decimal rendering of a natural number (the way a JS number prints
inside a template string). -/
def natDecimal (n : Nat) : String := ⟨natDecimalAux n n []⟩

/-- Decimal rendering of an integer. -/
def intDecimal (i : Int) : String :=
  if i < 0 then "-" ++ natDecimal i.natAbs else natDecimal i.toNat

/-- Rendering of a JS number inside a template string: NaN prints as
the three characters NaN. -/
def jsNumStr : JsNum → String
  | none => "NaN"
  | some i => intDecimal i

/-- Leading decimal digits of a character list, as a number; `none`
when there is no leading digit (JS parseInt then yields NaN). -/
def parseDigits (cs : List Char) : Option Nat :=
  let ds := cs.takeWhile Char.isDigit
  if ds.isEmpty then none else some (digitsToNat ds)

/-- Model of JavaScript parseInt(s, 10): skip leading whitespace, read
an optional sign and then leading decimal digits; NaN (`none`) when no
digit follows. -/
def jsParseIntChars (cs : List Char) : JsNum :=
  match cs.dropWhile Char.isWhitespace with
  | [] => none
  | c :: rest =>
    if c = '-' then (parseDigits rest).map (fun n => -(n : Int))
    else if c = '+' then (parseDigits rest).map (fun n => (n : Int))
    else (parseDigits (c :: rest)).map (fun n => (n : Int))

/-- Model of JavaScript String.prototype.replace with a non-global
pattern and empty replacement: remove the first occurrence of the
pattern, if any. -/
def listReplaceFirst (s pat : List Char) : List Char :=
  if pat.isPrefixOf s then s.drop pat.length
  else
    match s with
    | [] => []
    | c :: rest => c :: listReplaceFirst rest pat

/-- Model of JavaScript String.prototype.split on a one-character
separator. -/
def listSplitOn (sep : Char) : List Char → List (List Char)
  | [] => [[]]
  | c :: rest =>
    let r := listSplitOn sep rest
    if c = sep then [] :: r
    else
      match r with
      | [] => [[c]]
      | p :: ps => (c :: p) :: ps

/-- Model of JavaScript String.prototype.startsWith. -/
def jsStartsWith (s pat : String) : Bool := pat.toList.isPrefixOf s.toList

/-- Range-header parsing exactly as both file-route handlers do it
(src/routes/auth.js lines 862-864 and 806-808):
range.replace(bytes=, empty).split(dash); start = parseInt(parts[0]);
end = parts[1] truthy ? parseInt(parts[1]) : fileSize - 1. -/
def rangeParts (range : String) (fileSize : Nat) : JsNum × JsNum :=
  let parts := listSplitOn '-' (listReplaceFirst range.toList "bytes=".toList)
  let start := jsParseIntChars (parts.headD [])
  let p1 := parts.getD 1 []
  let e : JsNum := if p1 = [] then some ((fileSize : Int) - 1) else jsParseIntChars p1
  (start, e)

/-- Stored GridFS object: the files document plus its chunk contents.
The length field of the files document always equals the byte count of
the uploaded blob, and chunkSize is the bucket chunk size recorded at
upload (255 KiB by default, positive in every real bucket). -/
structure StoredFile where
  filename : String
  contentType : String
  chunkSize : Nat
  bytes : List Nat
deriving Repr, DecidableEq

/-- Object store state: the files collection, keyed by the string form
of the ObjectId. -/
abbrev Store := List (String × StoredFile)

/-- Model of mongodb ObjectId.isValid on a string: a 24-character hex
string, or any 12-character string (interpreted as 12 raw bytes). -/
def isHexChar (c : Char) : Bool :=
  c.isDigit || ('a' ≤ c && c ≤ 'f') || ('A' ≤ c && c ≤ 'F')

/-- Validity of a string as an ObjectId (mongodb ObjectId.isValid). -/
def objectIdIsValid (s : String) : Bool :=
  (s.toList.length = 24 && s.toList.all isHexChar) || s.toList.length = 12

/-- Multipart file input as produced by the upload middleware:
original name, MIME type, and the buffered bytes. -/
structure FileInput where
  originalname : String
  mimetype : String
  buffer : List Nat
deriving Repr, DecidableEq

/-- Model of uploadFile (src/unnamed/part_010 lines 11-32): open an
upload stream on the bucket, write the whole buffer, and resolve with
the new id.  The driver assigns a fresh ObjectId; the model takes it
as the newId argument, together with the bucket chunk size. -/
def uploadFile (store : Store) (newId : String) (chunkSize : Nat)
    (file : FileInput) : String × Store :=
  (newId,
   (newId,
    { filename := file.originalname
      contentType := file.mimetype
      chunkSize := chunkSize
      bytes := file.buffer }) :: store)

/-- Model of getFileMetadata (src/unnamed/part_010 lines 60-70):
bucket.find on the id, first element or null. -/
def getFileMetadata (store : Store) (fileId : String) : Option StoredFile :=
  store.lookup fileId

/-- Chunk documents of a GridFS download stream, trimmed to the byte
window from start (inclusive) to endE (exclusive): the driver walks
the fixed-size chunk documents of the file and emits each one cut to
the requested window, skipping chunks that fall wholly outside it. -/
def streamChunksAux (cs : Nat) (bytes : List Nat) (start endE : Nat) :
    List (List Nat) :=
  match bytes with
  | [] => []
  | b :: bs =>
    if _h : cs = 0 then []
    else
      let t := (((b :: bs).take cs).take endE).drop start
      let tail := streamChunksAux cs ((b :: bs).drop cs) (start - cs) (endE - cs)
      if t.isEmpty then tail else t :: tail
termination_by bytes.length
decreasing_by simp [List.length_drop]; omega

/-- Model of getFileStream (src/unnamed/part_010 lines 35-57): build
the download options exactly as the source does — options.start only
when start > 0, options.end = end + 1 (exclusive) only when the end
argument is not null — and open a download stream on the bucket.
`none` models the stream erroring with FileNotFound because the id
does not resolve.  The start argument is a JS number (NaN possible,
in which case the start option is not set since NaN > 0 is false);
endArg is null (`none`) or a JS number.  A NaN end option selects no
chunk document, yielding an empty stream; no verified claim exercises
that path. -/
def getFileStream (store : Store) (fileId : String) (start : JsNum)
    (endArg : Option JsNum) : Option (List (List Nat)) :=
  match store.lookup fileId with
  | none => none
  | some f =>
    let optStart : Nat :=
      match start with
      | some s => if 0 < s then s.toNat else 0
      | none => 0
    let endExcl : Nat :=
      match endArg with
      | none => f.bytes.length
      | some e =>
        match jsAdd e (some 1) with
        | some v => v.toNat
        | none => 0
    some (streamChunksAux f.chunkSize f.bytes optStart endExcl)

/-- Model of the GridFSBucket delete used by deleteFile
(src/unnamed/part_010 lines 73-82): remove the files document and its
chunks; the driver rejects with a file-not-found error (modelled as
`none`) when no files document matched the id. -/
def bucketDelete (store : Store) (fileId : String) : Option Store :=
  match store.lookup fileId with
  | none => none
  | some _ => some (store.filter (fun p => p.1 != fileId))

/-- Store operations a handler performed, in order. -/
inductive StoreOp
  | stat
  | openRange
  | delete
deriving Repr, DecidableEq

/-- Observable outcome of one request: status code, response headers
(as last-write-wins key/value pairs), the streamed body chunks, the
JSON message body if any, and the store operations performed. -/
structure HttpResponse where
  status : Nat
  headers : List (String × String)
  chunks : List (List Nat)
  jsonBody : Option String
  calls : List StoreOp
deriving Repr

/-- Model of res.setHeader: replace any previous value for the name. -/
def setH (hs : List (String × String)) (k v : String) :
    List (String × String) :=
  hs.filter (fun p => p.1 != k) ++ [(k, v)]

/-- Fold a list of setHeader calls, in order. -/
def setAll (hs : List (String × String)) (l : List (String × String)) :
    List (String × String) :=
  l.foldl (fun a p => setH a p.1 p.2) hs

/-- Value of a response header, if set. -/
def getH (r : HttpResponse) (k : String) : Option String :=
  r.headers.lookup k

/-- Truthiness of the optional Range header in the JS condition
`if (range && ...)`: an absent header and an empty string are both
falsy. -/
def truthyRange : Option String → Option String
  | none => none
  | some r => if r = "" then none else some r

/-- Content type resolution `metadata.metadata?.contentType ||
application/octet-stream` (the upload path always sets contentType,
possibly to an empty string, which the JS or-fallback also replaces). -/
def resolveContentType (f : StoredFile) : String :=
  if f.contentType = "" then "application/octet-stream" else f.contentType

/-- Media check of both handlers: contentType.startsWith audio/ or
video/. -/
def isMediaType (ct : String) : Bool :=
  jsStartsWith ct "audio/" || jsStartsWith ct "video/"

/-- Unsatisfiability test of both handlers, on JS numbers:
start >= fileSize or end >= fileSize or start > end. -/
def rangeUnsat (start e : JsNum) (fileSize : Nat) : Bool :=
  jsGe start (some (fileSize : Int)) || jsGe e (some (fileSize : Int)) ||
    jsGt start e

/-- Model of the GET /:fileId handler (src/routes/auth.js lines
832-913): validate the id, look up metadata, set caching and CORS
headers, then either serve a 206 sub-range (for truthy Range headers
on audio/video content), a 416 with Content-Range bytes */length, or
the full content with status 200; the body chunks come from
getFileStream. -/
def handleGet (store : Store) (fileId : String)
    (rangeHeader : Option String) : HttpResponse :=
  if objectIdIsValid fileId then
    match getFileMetadata store fileId with
    | none =>
      { status := 404, headers := [], chunks := [],
        jsonBody := some "File not found", calls := [.stat] }
    | some f =>
      let fileSize := f.bytes.length
      let contentType := resolveContentType f
      let hs0 := setAll []
        [("Cache-Control",
          "public, max-age=31536000, immutable, stale-while-revalidate=86400"),
         ("Accept-Ranges", "bytes"),
         ("ETag", "\"" ++ fileId ++ "\""),
         ("Access-Control-Allow-Origin", "*"),
         ("Access-Control-Allow-Methods", "GET, HEAD, OPTIONS"),
         ("Access-Control-Expose-Headers",
          "Content-Range, Content-Length, Accept-Ranges")]
      match truthyRange rangeHeader with
      | some range =>
        if isMediaType contentType then
          let p := rangeParts range fileSize
          if rangeUnsat p.1 p.2 fileSize then
            { status := 416,
              headers := setH hs0 "Content-Range"
                ("bytes */" ++ natDecimal fileSize),
              chunks := [], jsonBody := none, calls := [.stat] }
          else
            let chunksize := jsAdd (jsSub p.2 p.1) (some 1)
            { status := 206,
              headers := setAll hs0
                [("Content-Range",
                  "bytes " ++ jsNumStr p.1 ++ "-" ++ jsNumStr p.2 ++ "/" ++
                    natDecimal fileSize),
                 ("Content-Length", jsNumStr chunksize),
                 ("Content-Type", contentType)],
              chunks := (getFileStream store fileId p.1 (some p.2)).getD [],
              jsonBody := none, calls := [.stat, .openRange] }
        else
          { status := 200,
            headers := setAll hs0
              [("Content-Length", natDecimal fileSize),
               ("Content-Type", contentType)],
            chunks := (getFileStream store fileId (some 0) none).getD [],
            jsonBody := none, calls := [.stat, .openRange] }
      | none =>
        { status := 200,
          headers := setAll hs0
            [("Content-Length", natDecimal fileSize),
             ("Content-Type", contentType)],
          chunks := (getFileStream store fileId (some 0) none).getD [],
          jsonBody := none, calls := [.stat, .openRange] }
  else
    { status := 400, headers := [], chunks := [],
      jsonBody := some "Invalid file ID", calls := [] }

/-- Model of the HEAD /:fileId handler (src/routes/auth.js lines
783-829): validate the id, look up metadata, set caching headers plus
Content-Type and Content-Length for the whole object, then for truthy
Range headers on audio/video content either report 416 or override
status and headers for the 206 case; it never opens a download
stream and never sends a body. -/
def handleHead (store : Store) (fileId : String)
    (rangeHeader : Option String) : HttpResponse :=
  if objectIdIsValid fileId then
    match getFileMetadata store fileId with
    | none =>
      { status := 404, headers := [], chunks := [],
        jsonBody := none, calls := [.stat] }
    | some f =>
      let fileSize := f.bytes.length
      let contentType := resolveContentType f
      let hs0 := setAll []
        [("Cache-Control", "public, max-age=31536000, immutable"),
         ("Accept-Ranges", "bytes"),
         ("Content-Type", contentType),
         ("Content-Length", natDecimal fileSize),
         ("ETag", "\"" ++ fileId ++ "\"")]
      match truthyRange rangeHeader with
      | some range =>
        if isMediaType contentType then
          let p := rangeParts range fileSize
          if rangeUnsat p.1 p.2 fileSize then
            { status := 416,
              headers := setH hs0 "Content-Range"
                ("bytes */" ++ natDecimal fileSize),
              chunks := [], jsonBody := none, calls := [.stat] }
          else
            let chunksize := jsAdd (jsSub p.2 p.1) (some 1)
            { status := 206,
              headers := setAll hs0
                [("Content-Range",
                  "bytes " ++ jsNumStr p.1 ++ "-" ++ jsNumStr p.2 ++ "/" ++
                    natDecimal fileSize),
                 ("Content-Length", jsNumStr chunksize)],
              chunks := [], jsonBody := none, calls := [.stat] }
        else
          { status := 200, headers := hs0, chunks := [],
            jsonBody := none, calls := [.stat] }
      | none =>
        { status := 200, headers := hs0, chunks := [],
          jsonBody := none, calls := [.stat] }
  else
    { status := 400, headers := [], chunks := [],
      jsonBody := none, calls := [] }

/-- Model of the DELETE /:fileId handler (src/routes/auth.js lines
915-929): validate the id, call deleteFile, answer 200 with a JSON
message on success; a rejection from the bucket delete (in particular
the driver file-not-found error on a missing id) lands in the catch
block as a 500. -/
def handleDelete (store : Store) (fileId : String) :
    HttpResponse × Store :=
  if objectIdIsValid fileId then
    match bucketDelete store fileId with
    | some store2 =>
      ({ status := 200, headers := [], chunks := [],
         jsonBody := some "File deleted successfully",
         calls := [.delete] }, store2)
    | none =>
      ({ status := 500, headers := [], chunks := [],
         jsonBody := some "Server error", calls := [.delete] }, store)
  else
    ({ status := 400, headers := [], chunks := [],
       jsonBody := some "Invalid file ID", calls := [] }, store)

/-- Event wiring of the GET handler streaming branches
(src/routes/auth.js lines 878-890 and 897-905), as registered on the
download stream and the response: the stream is piped into the
response and given an error listener; no listener on request close,
response close or abort destroys the download stream. -/
structure StreamTeardown where
  pipesToResponse : Bool
  errorListenerOnStream : Bool
  destroyStreamOnClientDisconnect : Bool
deriving Repr, DecidableEq

/-- Wiring actually present in the GET handler source: pipe plus an
error listener only. -/
def getRouteStreamTeardown : StreamTeardown :=
  { pipesToResponse := true
    errorListenerOnStream := true
    destroyStreamOnClientDisconnect := false }

/-- Concrete fixture: a valid 24-hex-character object id. -/
def wId : String := "0123456789abcdef01234567"

/-- Concrete fixture: a ten-byte audio object stored with a four-byte
chunk size (several chunks plus a remainder). -/
def wFile : StoredFile :=
  { filename := "track.mp3", contentType := "audio/mpeg", chunkSize := 4,
    bytes := [10, 11, 12, 13, 14, 15, 16, 17, 18, 19] }

/-- Concrete fixture: a store holding the audio object. -/
def wStore : Store := [(wId, wFile)]

/-- Concrete fixture: a 120-byte video object. -/
def wVideoFile : StoredFile :=
  { filename := "clip.mp4", contentType := "video/mp4", chunkSize := 16,
    bytes := List.replicate 120 7 }

/-- Concrete fixture: a store holding the video object. -/
def wVideoStore : Store := [(wId, wVideoFile)]

/-- Properties of the decimal digit characters. -/
theorem digitChar_props (d : Nat) (h : d < 10) :
    digitVal (digitChar d) = d ∧ (digitChar d).isDigit = true ∧
      (digitChar d).isWhitespace = false ∧ ¬ digitChar d = '-' ∧
      ¬ digitChar d = '+' := by
  interval_cases d <;>
    exact ⟨by decide, by decide, by decide, by decide, by decide⟩

/-- Accumulator form of the decimal rendering. -/
theorem natDecimalAux_eq_append :
    ∀ (fuel n : Nat) (acc : List Char),
      natDecimalAux fuel n acc = natDecimalAux fuel n [] ++ acc := by
  intro fuel
  induction fuel with
  | zero => intro n acc; rfl
  | succ fuel ih =>
    intro n acc
    by_cases h : n < 10
    · simp [natDecimalAux, h]
    · simp only [natDecimalAux, h, if_false]
      rw [ih (n / 10) (digitChar (n % 10) :: acc),
        ih (n / 10) [digitChar (n % 10)]]
      simp

/-- Decimal rendering with sufficient fuel is a nonempty list of digit
characters whose value is the rendered number. -/
theorem natDecimalAux_digits :
    ∀ (fuel n : Nat), n ≤ fuel →
      natDecimalAux fuel n [] ≠ [] ∧
        (∀ c ∈ natDecimalAux fuel n [], ∃ d, d < 10 ∧ c = digitChar d) ∧
        digitsToNat (natDecimalAux fuel n []) = n := by
  intro fuel
  induction fuel with
  | zero =>
    intro n hn
    have : n = 0 := by omega
    subst this
    refine ⟨by simp [natDecimalAux], ?_, ?_⟩
    · intro c hc
      simp [natDecimalAux] at hc
      exact ⟨0, by omega, hc⟩
    · simp [natDecimalAux, digitsToNat, (digitChar_props 0 (by omega)).1]
  | succ fuel ih =>
    intro n hn
    by_cases h : n < 10
    · simp only [natDecimalAux, h, if_true]
      refine ⟨by simp, ?_, ?_⟩
      · intro c hc
        simp at hc
        exact ⟨n, h, hc⟩
      · simp [digitsToNat, (digitChar_props n h).1]
    · have hdiv : n / 10 ≤ fuel := by omega
      obtain ⟨ihne, ihmem, ihval⟩ := ih (n / 10) hdiv
      have hrw : natDecimalAux (fuel + 1) n [] =
          natDecimalAux fuel (n / 10) [] ++ [digitChar (n % 10)] := by
        simp only [natDecimalAux, h, if_false]
        exact natDecimalAux_eq_append fuel (n / 10) [digitChar (n % 10)]
      rw [hrw]
      refine ⟨by simp, ?_, ?_⟩
      · intro c hc
        rcases List.mem_append.mp hc with hc | hc
        · exact ihmem c hc
        · simp at hc
          exact ⟨n % 10, by omega, hc⟩
      · have : digitsToNat (natDecimalAux fuel (n / 10) [] ++
            [digitChar (n % 10)]) =
            10 * digitsToNat (natDecimalAux fuel (n / 10) []) +
              digitVal (digitChar (n % 10)) := by
          unfold digitsToNat
          rw [List.foldl_append]
          rfl
        rw [this, ihval, (digitChar_props (n % 10) (by omega)).1]
        omega

/-- Digit facts for the fuel-diagonal rendering used by natDecimal. -/
theorem natDecimal_digits (n : Nat) :
    natDecimalAux n n [] ≠ [] ∧
      (∀ c ∈ natDecimalAux n n [], ∃ d, d < 10 ∧ c = digitChar d) ∧
      digitsToNat (natDecimalAux n n []) = n :=
  natDecimalAux_digits n n le_rfl

/-- A takeWhile over a list all of whose elements satisfy the test is
the whole list. -/
theorem takeWhile_of_all {p : Char → Bool} :
    ∀ {l : List Char}, (∀ c ∈ l, p c = true) → l.takeWhile p = l := by
  intro l
  induction l with
  | nil => intro _; rfl
  | cons c rest ih =>
    intro h
    rw [List.takeWhile_cons]
    simp [h c (by simp), ih fun x hx => h x (by simp [hx])]

/-- A dropWhile whose test fails on every element is the identity. -/
theorem dropWhile_of_none {p : Char → Bool} {l : List Char}
    (h : ∀ c ∈ l, p c = false) : l.dropWhile p = l := by
  cases l with
  | nil => rfl
  | cons c rest =>
    rw [List.dropWhile_cons]
    simp [h c (by simp)]

/-- parseInt applied to the decimal rendering recovers the number. -/
theorem jsParseIntChars_natDecimal (n : Nat) :
    jsParseIntChars (natDecimalAux n n []) = some (n : Int) := by
  obtain ⟨hne, hmem, hval⟩ := natDecimal_digits n
  have hdigit : ∀ c ∈ natDecimalAux n n [], c.isDigit = true := by
    intro c hc
    obtain ⟨d, hd, rfl⟩ := hmem c hc
    exact (digitChar_props d hd).2.1
  have hws : ∀ c ∈ natDecimalAux n n [], c.isWhitespace = false := by
    intro c hc
    obtain ⟨d, hd, rfl⟩ := hmem c hc
    exact (digitChar_props d hd).2.2.1
  obtain ⟨c, rest, hl⟩ : ∃ c rest, natDecimalAux n n [] = c :: rest := by
    cases h : natDecimalAux n n [] with
    | nil => exact absurd h hne
    | cons c rest => exact ⟨c, rest, rfl⟩
  obtain ⟨d, hd, hcd⟩ := hmem c (by rw [hl]; simp)
  have hdash : ¬ c = '-' := by rw [hcd]; exact (digitChar_props d hd).2.2.2.1
  have hplus : ¬ c = '+' := by rw [hcd]; exact (digitChar_props d hd).2.2.2.2
  unfold jsParseIntChars
  rw [dropWhile_of_none hws, hl]
  simp only [hdash, if_false, hplus]
  rw [← hl]
  unfold parseDigits
  rw [takeWhile_of_all hdigit]
  simp [List.isEmpty_iff, hne, hval]

/-- A list is always a leading pattern of itself followed by a tail. -/
theorem isPrefixOf_self_append :
    ∀ (pat tail : List Char), pat.isPrefixOf (pat ++ tail) = true := by
  intro pat tail
  induction pat with
  | nil => simp [List.isPrefixOf]
  | cons c p ih => simp [List.isPrefixOf, ih]

/-- Removing the first occurrence of a pattern from a string that
starts with it leaves the tail. -/
theorem listReplaceFirst_strip (pat tail : List Char) :
    listReplaceFirst (pat ++ tail) pat = tail := by
  rw [listReplaceFirst.eq_def]
  simp [isPrefixOf_self_append pat tail]

/-- Splitting a ++ sep :: b where a is separator-free yields a
followed by the split of b. -/
theorem listSplitOn_append (sep : Char) (b : List Char) :
    ∀ a, (∀ c ∈ a, ¬ c = sep) →
      listSplitOn sep (a ++ sep :: b) = a :: listSplitOn sep b := by
  intro a
  induction a with
  | nil => intro _; simp [listSplitOn]
  | cons c a ih =>
    intro h
    have hc : ¬ c = sep := h c (by simp)
    have hrec := ih fun x hx => h x (by simp [hx])
    simp only [List.cons_append, listSplitOn, List.append_eq]
    rw [if_neg hc, hrec]

/-- Splitting a separator-free string yields the single piece. -/
theorem listSplitOn_no_sep (sep : Char) :
    ∀ a, (∀ c ∈ a, ¬ c = sep) → listSplitOn sep a = [a] := by
  intro a
  induction a with
  | nil => intro _; rfl
  | cons c a ih =>
    intro h
    have hc : ¬ c = sep := h c (by simp)
    have hrec := ih fun x hx => h x (by simp [hx])
    simp only [listSplitOn, hrec]
    simp [hc]

/-- Range header with both positions written in decimal, or the end
omitted. -/
def mkRangeHeader (s : Nat) (e : Option Nat) : String :=
  "bytes=" ++ natDecimal s ++ "-" ++
    (match e with
     | some v => natDecimal v
     | none => "")

/-- Character list of a constructed range header. -/
theorem mkRangeHeader_toList (s : Nat) (e : Option Nat) :
    (mkRangeHeader s e).toList =
      "bytes=".toList ++
        (natDecimalAux s s [] ++ '-' ::
          (match e with
           | some v => natDecimalAux v v []
           | none => [])) := by
  cases e <;> simp [mkRangeHeader, natDecimal, String.toList]

/-- Constructed range headers are nonempty strings. -/
theorem mkRangeHeader_ne_empty (s : Nat) (e : Option Nat) :
    ¬ mkRangeHeader s e = "" := by
  intro h
  have := congrArg String.toList h
  rw [mkRangeHeader_toList] at this
  simp [String.toList] at this

/-- Digit characters are never the dash separator. -/
theorem natDecimal_no_dash (n : Nat) :
    ∀ c ∈ natDecimalAux n n [], ¬ c = '-' := by
  intro c hc
  obtain ⟨d, hd, rfl⟩ := (natDecimal_digits n).2.1 c hc
  exact (digitChar_props d hd).2.2.2.1

/-- Parsing a constructed bytes=s-e header recovers both numbers. -/
theorem rangeParts_mk_some (s e L : Nat) :
    rangeParts (mkRangeHeader s (some e)) L =
      (some (s : Int), some (e : Int)) := by
  unfold rangeParts
  rw [mkRangeHeader_toList]
  rw [listReplaceFirst_strip]
  rw [listSplitOn_append '-' (natDecimalAux e e []) (natDecimalAux s s [])
    (natDecimal_no_dash s)]
  rw [listSplitOn_no_sep '-' (natDecimalAux e e []) (natDecimal_no_dash e)]
  simp only [List.headD_cons, List.getD_cons_succ, List.getD_cons_zero]
  rw [if_neg (natDecimal_digits e).1]
  rw [jsParseIntChars_natDecimal s, jsParseIntChars_natDecimal e]

/-- Parsing a constructed bytes=s- header (end omitted) yields the
number and fileSize - 1. -/
theorem rangeParts_mk_none (s L : Nat) :
    rangeParts (mkRangeHeader s none) L =
      (some (s : Int), some ((L : Int) - 1)) := by
  unfold rangeParts
  rw [mkRangeHeader_toList]
  rw [listReplaceFirst_strip]
  rw [listSplitOn_append '-' [] (natDecimalAux s s [])
    (natDecimal_no_dash s)]
  simp only [listSplitOn]
  simp only [List.headD_cons, List.getD_cons_succ, List.getD_cons_zero]
  simp only [if_true]
  rw [jsParseIntChars_natDecimal s]

/-- Splitting a byte window at a chunk boundary: the window trimmed to
the first chunk followed by the window shifted into the rest equals
the window over the whole list. -/
theorem take_drop_chunk (cs : Nat) (bytes : List Nat) (start endE : Nat) :
    ((bytes.take cs).take endE).drop start ++
        ((bytes.drop cs).take (endE - cs)).drop (start - cs) =
      (bytes.take endE).drop start := by
  conv_rhs => rw [← List.take_append_drop cs bytes]
  rw [List.take_append_eq_append_take, List.drop_append_eq_append_drop]
  rw [List.length_take, List.length_take]
  by_cases hl : bytes.length ≤ cs
  · have hd : bytes.drop cs = [] := List.drop_eq_nil_of_le hl
    simp [hd]
  · push_neg at hl
    have h1 : min cs bytes.length = cs := by omega
    rw [h1]
    by_cases he : cs ≤ endE
    · have h2 : min endE cs = cs := by omega
      rw [h2]
    · have h0 : endE - cs = 0 := by omega
      simp [h0]

/-- Concatenating the trimmed chunk documents of a download stream
yields exactly the requested byte window. -/
theorem streamChunksAux_join (cs : Nat) (hcs : 0 < cs) :
    ∀ (bytes : List Nat) (start endE : Nat),
      (streamChunksAux cs bytes start endE).flatten =
        (bytes.take endE).drop start := by
  have key : ∀ (n : Nat) (bytes : List Nat), bytes.length ≤ n →
      ∀ (start endE : Nat),
        (streamChunksAux cs bytes start endE).flatten =
          (bytes.take endE).drop start := by
    intro n
    induction n with
    | zero =>
      intro bytes hb start endE
      have : bytes = [] := List.eq_nil_of_length_eq_zero (by omega)
      subst this
      simp [streamChunksAux]
    | succ n ih =>
      intro bytes hb start endE
      match bytes with
      | [] => simp [streamChunksAux]
      | b :: bs =>
        rw [streamChunksAux]
        rw [dif_neg (by omega : ¬ cs = 0)]
        have hjoin : ∀ (t : List Nat) (tl : List (List Nat)),
            (if t.isEmpty then tl else t :: tl).flatten = t ++ tl.flatten := by
          intro t tl
          cases t <;> simp
        rw [hjoin]
        rw [ih ((b :: bs).drop cs)
          (by simp only [List.length_drop]; simp at hb ⊢; omega)
          (start - cs) (endE - cs)]
        exact take_drop_chunk cs (b :: bs) start endE
  intro bytes start endE
  exact key bytes.length bytes le_rfl start endE

/-- Lookup after filtering out a key finds nothing. -/
theorem lookup_filter_ne (k : String) :
    ∀ (l : Store), (l.filter (fun p => p.1 != k)).lookup k = none := by
  intro l
  induction l with
  | nil => rfl
  | cons p l ih =>
    by_cases h : p.1 = k
    · simp [List.filter_cons, h, ih]
    · simp only [List.filter_cons]
      have hb : (p.1 != k) = true := by simp [h]
      rw [if_pos hb]
      have hk : (k == p.1) = false := by simp [Ne.symm h]
      simp [List.lookup, hk, ih]

/-- Rendering of a nonnegative JS number agrees with the natural
decimal rendering. -/
theorem jsNumStr_coe (n : Nat) : jsNumStr (some (n : Int)) = natDecimal n := by
  simp [jsNumStr, intDecimal]

/-- Shared shape of the GET handler on a satisfiable parsed range:
206 status, Content-Range and Content-Length headers, and a body that
is exactly the requested inclusive slice. -/
theorem get206_aux
    (store : Store) (fileId : String) (f : StoredFile) (range : String)
    (s e : Nat)
    (hv : objectIdIsValid fileId = true)
    (hm : store.lookup fileId = some f)
    (hmedia : isMediaType (resolveContentType f) = true)
    (hcs : 0 < f.chunkSize)
    (hne : ¬ range = "")
    (hparse : rangeParts range f.bytes.length = (some (s : Int), some (e : Int)))
    (hse : s ≤ e) (heL : e < f.bytes.length) :
    (handleGet store fileId (some range)).status = 206 ∧
      getH (handleGet store fileId (some range)) "Content-Range" =
        some ("bytes " ++ natDecimal s ++ "-" ++ natDecimal e ++ "/" ++
          natDecimal f.bytes.length) ∧
      getH (handleGet store fileId (some range)) "Content-Length" =
        some (natDecimal (e - s + 1)) ∧
      (handleGet store fileId (some range)).chunks.flatten =
        (f.bytes.take (e + 1)).drop s := by
  have hsat : rangeUnsat (some (s : Int)) (some (e : Int)) f.bytes.length
      = false := by
    simp [rangeUnsat, jsGe, jsGt]
    omega
  have hresp : handleGet store fileId (some range) =
      { status := 206,
        headers := setAll (setAll []
          [("Cache-Control",
            "public, max-age=31536000, immutable, stale-while-revalidate=86400"),
           ("Accept-Ranges", "bytes"),
           ("ETag", "\"" ++ fileId ++ "\""),
           ("Access-Control-Allow-Origin", "*"),
           ("Access-Control-Allow-Methods", "GET, HEAD, OPTIONS"),
           ("Access-Control-Expose-Headers",
            "Content-Range, Content-Length, Accept-Ranges")])
          [("Content-Range",
            "bytes " ++ jsNumStr (some (s : Int)) ++ "-" ++
              jsNumStr (some (e : Int)) ++ "/" ++ natDecimal f.bytes.length),
           ("Content-Length",
            jsNumStr (jsAdd (jsSub (some (e : Int)) (some (s : Int)))
              (some 1))),
           ("Content-Type", resolveContentType f)],
        chunks := (getFileStream store fileId (some (s : Int))
          (some (some (e : Int)))).getD [],
        jsonBody := none, calls := [.stat, .openRange] } := by
    unfold handleGet
    rw [hv]
    simp only [getFileMetadata, hm, if_true]
    simp only [truthyRange]
    rw [if_neg hne]
    simp only [hmedia, if_true]
    rw [hparse]
    simp only [hsat, Bool.false_eq_true, if_false]
  rw [hresp]
  have hcl : jsAdd (jsSub (some (e : Int)) (some (s : Int))) (some 1) =
      some ((e - s + 1 : Nat) : Int) := by
    simp only [jsAdd, jsSub]
    congr 1
    push_cast
    omega
  refine ⟨rfl, ?_, ?_, ?_⟩
  · rw [jsNumStr_coe, jsNumStr_coe]
    simp only [getH]
    simp [setAll, setH]
    rfl
  · rw [hcl, jsNumStr_coe]
    simp only [getH]
    simp [setAll, setH]
    rfl
  · have hstream : getFileStream store fileId (some (s : Int))
        (some (some (e : Int))) =
        some (streamChunksAux f.chunkSize f.bytes s (e + 1)) := by
      unfold getFileStream
      rw [hm]
      have h1 : (if (0 : Int) < (s : Int) then (s : Int).toNat else 0) = s := by
        split <;> omega
      have h2 : ((e : Int) + 1).toNat = e + 1 := by omega
      simp only [jsAdd, h1, h2]
    rw [hstream]
    simp only [Option.getD_some]
    exact streamChunksAux_join f.chunkSize hcs f.bytes s (e + 1)

/-- Claim C1: for a stored audio or video object of length L and any
0 <= start <= end < L, a GET with Range bytes=start-end (and likewise
with the end omitted, which resolves to L-1) answers 206 with
Content-Range bytes start-end/L, Content-Length end-start+1, and a
body equal to the inclusive slice [start, end] of the stored bytes. -/
theorem get_satisfiable_range_206
    (store : Store) (fileId : String) (f : StoredFile) (s e : Nat)
    (hv : objectIdIsValid fileId = true)
    (hm : store.lookup fileId = some f)
    (hmedia : isMediaType (resolveContentType f) = true)
    (hcs : 0 < f.chunkSize)
    (hse : s ≤ e) (heL : e < f.bytes.length) :
    ((handleGet store fileId (some (mkRangeHeader s (some e)))).status = 206 ∧
      getH (handleGet store fileId (some (mkRangeHeader s (some e))))
          "Content-Range" =
        some ("bytes " ++ natDecimal s ++ "-" ++ natDecimal e ++ "/" ++
          natDecimal f.bytes.length) ∧
      getH (handleGet store fileId (some (mkRangeHeader s (some e))))
          "Content-Length" = some (natDecimal (e - s + 1)) ∧
      (handleGet store fileId
          (some (mkRangeHeader s (some e)))).chunks.flatten =
        (f.bytes.take (e + 1)).drop s) ∧
    ((handleGet store fileId (some (mkRangeHeader s none))).status = 206 ∧
      getH (handleGet store fileId (some (mkRangeHeader s none)))
          "Content-Range" =
        some ("bytes " ++ natDecimal s ++ "-" ++
          natDecimal (f.bytes.length - 1) ++ "/" ++
          natDecimal f.bytes.length) ∧
      getH (handleGet store fileId (some (mkRangeHeader s none)))
          "Content-Length" =
        some (natDecimal (f.bytes.length - 1 - s + 1)) ∧
      (handleGet store fileId (some (mkRangeHeader s none))).chunks.flatten =
        (f.bytes.take (f.bytes.length - 1 + 1)).drop s) := by
  constructor
  · exact get206_aux store fileId f (mkRangeHeader s (some e)) s e hv hm
      hmedia hcs (mkRangeHeader_ne_empty s (some e))
      (rangeParts_mk_some s e f.bytes.length) hse heL
  · have hparse : rangeParts (mkRangeHeader s none) f.bytes.length =
        (some (s : Int), some ((f.bytes.length - 1 : Nat) : Int)) := by
      rw [rangeParts_mk_none]
      have : ((f.bytes.length : Int) - 1) =
          ((f.bytes.length - 1 : Nat) : Int) := by omega
      rw [this]
    exact get206_aux store fileId f (mkRangeHeader s none) s
      (f.bytes.length - 1) hv hm hmedia hcs
      (mkRangeHeader_ne_empty s none) hparse (by omega) (by omega)

/-- Claim C2: a GET whose parsed range is unsatisfiable against the
object length answers 416 with Content-Range bytes */L, an empty
body, and performs no store read: only the metadata lookup happens. -/
theorem get_unsatisfiable_range_416
    (store : Store) (fileId : String) (f : StoredFile) (range : String)
    (s e : Int)
    (hv : objectIdIsValid fileId = true)
    (hm : store.lookup fileId = some f)
    (hmedia : isMediaType (resolveContentType f) = true)
    (hne : ¬ range = "")
    (hparse : rangeParts range f.bytes.length = (some s, some e))
    (hbad : (f.bytes.length : Int) ≤ s ∨ (f.bytes.length : Int) ≤ e ∨ e < s) :
    (handleGet store fileId (some range)).status = 416 ∧
      getH (handleGet store fileId (some range)) "Content-Range" =
        some ("bytes */" ++ natDecimal f.bytes.length) ∧
      (handleGet store fileId (some range)).chunks = [] ∧
      (handleGet store fileId (some range)).jsonBody = none ∧
      (handleGet store fileId (some range)).calls = [StoreOp.stat] := by
  have hsat : rangeUnsat (some s) (some e) f.bytes.length = true := by
    simp only [rangeUnsat, jsGe, jsGt, Bool.or_eq_true, decide_eq_true_eq]
    omega
  have hresp : handleGet store fileId (some range) =
      { status := 416,
        headers := setH (setAll []
          [("Cache-Control",
            "public, max-age=31536000, immutable, stale-while-revalidate=86400"),
           ("Accept-Ranges", "bytes"),
           ("ETag", "\"" ++ fileId ++ "\""),
           ("Access-Control-Allow-Origin", "*"),
           ("Access-Control-Allow-Methods", "GET, HEAD, OPTIONS"),
           ("Access-Control-Expose-Headers",
            "Content-Range, Content-Length, Accept-Ranges")])
          "Content-Range" ("bytes */" ++ natDecimal f.bytes.length),
        chunks := [], jsonBody := none, calls := [.stat] } := by
    unfold handleGet
    rw [hv]
    simp only [getFileMetadata, hm, if_true]
    simp only [truthyRange]
    rw [if_neg hne]
    simp only [hmedia, if_true]
    rw [hparse]
    simp only [hsat, if_true]
  rw [hresp]
  refine ⟨rfl, ?_, rfl, rfl, rfl⟩
  simp only [getH]
  simp [setAll, setH]
  rfl

/-- Claim C3: a GET with no Range header answers 200 with
Content-Length equal to the object length and a body whose chunk
concatenation is exactly the stored bytes. -/
theorem get_full_content_200
    (store : Store) (fileId : String) (f : StoredFile)
    (hv : objectIdIsValid fileId = true)
    (hm : store.lookup fileId = some f)
    (hcs : 0 < f.chunkSize) :
    (handleGet store fileId none).status = 200 ∧
      getH (handleGet store fileId none) "Content-Length" =
        some (natDecimal f.bytes.length) ∧
      (handleGet store fileId none).chunks.flatten = f.bytes := by
  have hresp : handleGet store fileId none =
      { status := 200,
        headers := setAll (setAll []
          [("Cache-Control",
            "public, max-age=31536000, immutable, stale-while-revalidate=86400"),
           ("Accept-Ranges", "bytes"),
           ("ETag", "\"" ++ fileId ++ "\""),
           ("Access-Control-Allow-Origin", "*"),
           ("Access-Control-Allow-Methods", "GET, HEAD, OPTIONS"),
           ("Access-Control-Expose-Headers",
            "Content-Range, Content-Length, Accept-Ranges")])
          [("Content-Length", natDecimal f.bytes.length),
           ("Content-Type", resolveContentType f)],
        chunks := (getFileStream store fileId (some 0) none).getD [],
        jsonBody := none, calls := [.stat, .openRange] } := by
    unfold handleGet
    rw [hv]
    simp only [getFileMetadata, hm, if_true]
    simp only [truthyRange]
  rw [hresp]
  refine ⟨rfl, ?_, ?_⟩
  · simp only [getH]
    simp [setAll, setH]
    rfl
  · have hstream : getFileStream store fileId (some 0) none =
        some (streamChunksAux f.chunkSize f.bytes 0 f.bytes.length) := by
      unfold getFileStream
      rw [hm]
      rfl
    rw [hstream]
    simp only [Option.getD_some]
    rw [streamChunksAux_join f.chunkSize hcs f.bytes 0 f.bytes.length]
    simp

/-- Claim C4: a syntactically invalid object id is rejected with 400
by GET, HEAD and DELETE alike, with no store operation performed and
the store unchanged. -/
theorem invalid_id_rejected_400
    (store : Store) (fileId : String) (rangeHeader : Option String)
    (hv : objectIdIsValid fileId = false) :
    (handleGet store fileId rangeHeader).status = 400 ∧
      (handleGet store fileId rangeHeader).calls = [] ∧
      (handleHead store fileId rangeHeader).status = 400 ∧
      (handleHead store fileId rangeHeader).calls = [] ∧
      (handleDelete store fileId).1.status = 400 ∧
      (handleDelete store fileId).1.calls = [] ∧
      (handleDelete store fileId).2 = store := by
  unfold handleGet handleHead handleDelete
  rw [hv]
  exact ⟨rfl, rfl, rfl, rfl, rfl, rfl, rfl⟩

/-- Claim C5: uploading any blob and reading back the full range
0..L-1 through the download stream reconstructs the blob exactly,
whatever its size relative to the chunk size. -/
theorem uploadFile_roundtrip
    (store : Store) (newId : String) (cs : Nat) (file : FileInput)
    (hcs : 0 < cs) :
    ((getFileStream (uploadFile store newId cs file).2
        (uploadFile store newId cs file).1 (some 0)
        (some (some ((file.buffer.length : Int) - 1)))).map
      (fun chs => chs.flatten)) = some file.buffer := by
  have hstream : getFileStream (uploadFile store newId cs file).2
      (uploadFile store newId cs file).1 (some 0)
      (some (some ((file.buffer.length : Int) - 1))) =
      some (streamChunksAux cs file.buffer 0
        ((file.buffer.length : Int) - 1 + 1).toNat) := by
    unfold uploadFile getFileStream
    simp [List.lookup, jsAdd]
  rw [hstream]
  have hend : ((file.buffer.length : Int) - 1 + 1).toNat =
      file.buffer.length := by omega
  rw [hend]
  simp only [Option.map_some']
  rw [streamChunksAux_join cs hcs file.buffer 0 file.buffer.length]
  simp

/-- Claim C6: once DELETE has removed a stored object, the metadata
lookup finds nothing (a GET answers 404), and opening a download
stream on the former id fails with not-found. -/
theorem delete_then_not_found
    (store : Store) (fileId : String) (f : StoredFile)
    (rangeHeader : Option String) (startArg : JsNum)
    (endArg : Option JsNum)
    (hv : objectIdIsValid fileId = true)
    (hm : store.lookup fileId = some f) :
    (handleDelete store fileId).1.status = 200 ∧
      getFileMetadata (handleDelete store fileId).2 fileId = none ∧
      getFileStream (handleDelete store fileId).2 fileId startArg endArg =
        none ∧
      (handleGet (handleDelete store fileId).2 fileId rangeHeader).status =
        404 := by
  have hdel : handleDelete store fileId =
      ({ status := 200, headers := [], chunks := [],
         jsonBody := some "File deleted successfully",
         calls := [.delete] }, store.filter (fun p => p.1 != fileId)) := by
    unfold handleDelete bucketDelete
    rw [hv]
    simp [hm]
  rw [hdel]
  have hgone := lookup_filter_ne fileId store
  refine ⟨rfl, ?_, ?_, ?_⟩
  · simp only [getFileMetadata]
    exact hgone
  · unfold getFileStream
    rw [hgone]
  · unfold handleGet
    rw [hv]
    simp only [getFileMetadata, hgone, if_true]

/-- Claim C7 (amended): DELETE on a syntactically valid id that does
not resolve answers 500, because the bucket delete rejects with a
file-not-found error, and leaves the store unchanged; the delete was
attempted against the store. -/
theorem delete_missing_500
    (store : Store) (fileId : String)
    (hv : objectIdIsValid fileId = true)
    (hm : store.lookup fileId = none) :
    (handleDelete store fileId).1.status = 500 ∧
      (handleDelete store fileId).2 = store ∧
      (handleDelete store fileId).1.calls = [StoreOp.delete] := by
  unfold handleDelete bucketDelete
  rw [hv]
  simp [hm]

/-- Claim C9 (present wiring): the GET streaming branches pipe the
download stream into the response and attach an error listener, but
register nothing that destroys the stream when the client
disconnects. -/
theorem stream_not_destroyed_on_disconnect :
    getRouteStreamTeardown.pipesToResponse = true ∧
      getRouteStreamTeardown.errorListenerOnStream = true ∧
      getRouteStreamTeardown.destroyStreamOnClientDisconnect = false := by
  exact ⟨rfl, rfl, rfl⟩

/-- Claim C10 (amended): when the first range position parses to NaN,
both start comparisons are false; if the resolved end is below the
length the 206 branch runs and emits a Content-Range containing NaN,
and if the resolved end reaches the length the end comparison makes
the request 416; the full-content branch is never taken. -/
theorem nan_start_range_behavior
    (store : Store) (fileId : String) (f : StoredFile) (range : String)
    (e : Int)
    (hv : objectIdIsValid fileId = true)
    (hm : store.lookup fileId = some f)
    (hmedia : isMediaType (resolveContentType f) = true)
    (hne : ¬ range = "")
    (hparse : rangeParts range f.bytes.length = (none, some e)) :
    (e < (f.bytes.length : Int) →
      (handleGet store fileId (some range)).status = 206 ∧
        getH (handleGet store fileId (some range)) "Content-Range" =
          some ("bytes NaN-" ++ jsNumStr (some e) ++ "/" ++
            natDecimal f.bytes.length)) ∧
      ((f.bytes.length : Int) ≤ e →
        (handleGet store fileId (some range)).status = 416) ∧
      ¬ (handleGet store fileId (some range)).status = 200 := by
  by_cases hlt : e < (f.bytes.length : Int)
  · have hsat : rangeUnsat none (some e) f.bytes.length = false := by
      simp only [rangeUnsat, jsGe, jsGt]
      simp
      omega
    have hresp : handleGet store fileId (some range) =
        { status := 206,
          headers := setAll (setAll []
            [("Cache-Control",
              "public, max-age=31536000, immutable, stale-while-revalidate=86400"),
             ("Accept-Ranges", "bytes"),
             ("ETag", "\"" ++ fileId ++ "\""),
             ("Access-Control-Allow-Origin", "*"),
             ("Access-Control-Allow-Methods", "GET, HEAD, OPTIONS"),
             ("Access-Control-Expose-Headers",
              "Content-Range, Content-Length, Accept-Ranges")])
            [("Content-Range",
              "bytes " ++ jsNumStr none ++ "-" ++ jsNumStr (some e) ++ "/" ++
                natDecimal f.bytes.length),
             ("Content-Length",
              jsNumStr (jsAdd (jsSub (some e) none) (some 1))),
             ("Content-Type", resolveContentType f)],
          chunks := (getFileStream store fileId none
            (some (some e))).getD [],
          jsonBody := none, calls := [.stat, .openRange] } := by
      unfold handleGet
      rw [hv]
      simp only [getFileMetadata, hm, if_true]
      simp only [truthyRange]
      rw [if_neg hne]
      simp only [hmedia, if_true]
      rw [hparse]
      simp only [hsat, Bool.false_eq_true, if_false]
    rw [hresp]
    refine ⟨fun _ => ⟨rfl, ?_⟩, fun h => absurd h (by omega), by simp⟩
    simp only [getH]
    simp [setAll, setH]
    rfl
  · have hsat : rangeUnsat none (some e) f.bytes.length = true := by
      simp only [rangeUnsat, jsGe, jsGt]
      simp
      omega
    have hresp : handleGet store fileId (some range) =
        { status := 416,
          headers := setH (setAll []
            [("Cache-Control",
              "public, max-age=31536000, immutable, stale-while-revalidate=86400"),
             ("Accept-Ranges", "bytes"),
             ("ETag", "\"" ++ fileId ++ "\""),
             ("Access-Control-Allow-Origin", "*"),
             ("Access-Control-Allow-Methods", "GET, HEAD, OPTIONS"),
             ("Access-Control-Expose-Headers",
              "Content-Range, Content-Length, Accept-Ranges")])
            "Content-Range" ("bytes */" ++ natDecimal f.bytes.length),
          chunks := [], jsonBody := none, calls := [.stat] } := by
      unfold handleGet
      rw [hv]
      simp only [getFileMetadata, hm, if_true]
      simp only [truthyRange]
      rw [if_neg hne]
      simp only [hmedia, if_true]
      rw [hparse]
      simp only [hsat, if_true]
    rw [hresp]
    exact ⟨fun h => absurd h (by omega), fun _ => rfl, by simp⟩

/-- Claim C8 (amended): for every id and optional Range header, HEAD
answers with the same status code as GET and the same Content-Range,
Accept-Ranges and ETag headers; outside the 416 case the Content-Length
and Content-Type headers also agree; HEAD sends no body chunks and
never opens a download stream.  (The Cache-Control values differ and
GET additionally sets CORS headers.) -/
theorem head_matches_get
    (store : Store) (fileId : String) (rangeHeader : Option String) :
    (handleHead store fileId rangeHeader).status =
      (handleGet store fileId rangeHeader).status ∧
    getH (handleHead store fileId rangeHeader) "Content-Range" =
      getH (handleGet store fileId rangeHeader) "Content-Range" ∧
    getH (handleHead store fileId rangeHeader) "Accept-Ranges" =
      getH (handleGet store fileId rangeHeader) "Accept-Ranges" ∧
    getH (handleHead store fileId rangeHeader) "ETag" =
      getH (handleGet store fileId rangeHeader) "ETag" ∧
    ((handleGet store fileId rangeHeader).status ≠ 416 →
      getH (handleHead store fileId rangeHeader) "Content-Length" =
        getH (handleGet store fileId rangeHeader) "Content-Length" ∧
      getH (handleHead store fileId rangeHeader) "Content-Type" =
        getH (handleGet store fileId rangeHeader) "Content-Type") ∧
    (handleHead store fileId rangeHeader).chunks = [] ∧
    StoreOp.openRange ∉ (handleHead store fileId rangeHeader).calls := by
  unfold handleGet handleHead
  by_cases hv : objectIdIsValid fileId = true
  case neg =>
    rw [if_neg hv, if_neg hv]
    refine ⟨rfl, rfl, rfl, rfl, fun _ => ⟨rfl, rfl⟩, rfl, by simp⟩
  case pos =>
    rw [if_pos hv, if_pos hv]
    simp only [getFileMetadata]
    cases hm : store.lookup fileId with
    | none =>
      refine ⟨rfl, rfl, rfl, rfl, fun _ => ⟨rfl, rfl⟩, rfl, by simp⟩
    | some f =>
      cases ht : truthyRange rangeHeader with
      | none =>
        refine ⟨rfl, ?_, ?_, ?_, fun _ => ⟨?_, ?_⟩, rfl, by simp⟩ <;>
          · simp only [getH]
            simp [setAll, setH]
            rfl
      | some range =>
        dsimp only
        by_cases hmed : isMediaType (resolveContentType f) = true
        case neg =>
          rw [if_neg hmed, if_neg hmed]
          refine ⟨rfl, ?_, ?_, ?_, fun _ => ⟨?_, ?_⟩, rfl, by simp⟩ <;>
            · simp only [getH]
              simp [setAll, setH]
              rfl
        case pos =>
          rw [if_pos hmed, if_pos hmed]
          by_cases hsat : rangeUnsat (rangeParts range f.bytes.length).1
              (rangeParts range f.bytes.length).2 f.bytes.length = true
          case pos =>
            rw [if_pos hsat, if_pos hsat]
            refine ⟨rfl, ?_, ?_, ?_, fun h => absurd rfl h, rfl, by simp⟩ <;>
              · simp only [getH]
                simp [setAll, setH]
                rfl
          case neg =>
            rw [if_neg hsat, if_neg hsat]
            refine ⟨rfl, ?_, ?_, ?_, fun _ => ⟨?_, ?_⟩, rfl, by simp⟩ <;>
              · simp only [getH]
                simp [setAll, setH]
                rfl

/-- Witness for C1: on the concrete ten-byte audio object, a GET with
Range bytes=2-7 answers 206, Content-Range bytes 2-7/10,
Content-Length 6, body bytes 12..17; with bytes=2- the end resolves
to 9. -/
theorem get_satisfiable_range_206_witness :
    objectIdIsValid wId = true ∧ wStore.lookup wId = some wFile ∧
      isMediaType (resolveContentType wFile) = true ∧
      0 < wFile.chunkSize ∧ 2 ≤ 7 ∧ 7 < wFile.bytes.length ∧
      (((handleGet wStore wId (some "bytes=2-7")).status = 206 ∧
        getH (handleGet wStore wId (some "bytes=2-7")) "Content-Range" =
          some "bytes 2-7/10" ∧
        getH (handleGet wStore wId (some "bytes=2-7")) "Content-Length" =
          some "6" ∧
        (handleGet wStore wId (some "bytes=2-7")).chunks.flatten =
          [12, 13, 14, 15, 16, 17]) ∧
       ((handleGet wStore wId (some "bytes=2-")).status = 206 ∧
        getH (handleGet wStore wId (some "bytes=2-")) "Content-Range" =
          some "bytes 2-9/10" ∧
        getH (handleGet wStore wId (some "bytes=2-")) "Content-Length" =
          some "8" ∧
        (handleGet wStore wId (some "bytes=2-")).chunks.flatten =
          [12, 13, 14, 15, 16, 17, 18, 19])) :=
  ⟨by decide, by decide, by decide, by decide, by decide, by decide,
   get_satisfiable_range_206 wStore wId wFile 2 7 (by decide) (by decide)
     (by decide) (by decide) (by decide) (by decide)⟩

/-- Witness for C2: on the ten-byte object, bytes=12-20 parses to
(12, 20) and answers 416 with Content-Range bytes */10, empty body,
and only the metadata lookup performed. -/
theorem get_unsatisfiable_range_416_witness :
    objectIdIsValid wId = true ∧ wStore.lookup wId = some wFile ∧
      rangeParts "bytes=12-20" wFile.bytes.length = (some 12, some 20) ∧
      ((handleGet wStore wId (some "bytes=12-20")).status = 416 ∧
        getH (handleGet wStore wId (some "bytes=12-20")) "Content-Range" =
          some "bytes */10" ∧
        (handleGet wStore wId (some "bytes=12-20")).chunks = [] ∧
        (handleGet wStore wId (some "bytes=12-20")).jsonBody = none ∧
        (handleGet wStore wId (some "bytes=12-20")).calls =
          [StoreOp.stat]) :=
  ⟨by decide, by decide, by decide,
   get_unsatisfiable_range_416 wStore wId wFile "bytes=12-20" 12 20
     (by decide) (by decide) (by decide) (by decide) (by decide)
     (by decide)⟩

/-- Witness for C3: a GET of the ten-byte object with no Range header
answers 200, Content-Length 10, and streams all ten bytes. -/
theorem get_full_content_200_witness :
    objectIdIsValid wId = true ∧ wStore.lookup wId = some wFile ∧
      0 < wFile.chunkSize ∧
      ((handleGet wStore wId none).status = 200 ∧
        getH (handleGet wStore wId none) "Content-Length" = some "10" ∧
        (handleGet wStore wId none).chunks.flatten =
          [10, 11, 12, 13, 14, 15, 16, 17, 18, 19]) :=
  ⟨by decide, by decide, by decide,
   get_full_content_200 wStore wId wFile (by decide) (by decide)
     (by decide)⟩

/-- Witness for C4: the four-character id nope is invalid; GET, HEAD
and DELETE all answer 400 and perform no store operation. -/
theorem invalid_id_rejected_400_witness :
    objectIdIsValid "nope" = false ∧
      ((handleGet wStore "nope" none).status = 400 ∧
        (handleGet wStore "nope" none).calls = [] ∧
        (handleHead wStore "nope" none).status = 400 ∧
        (handleHead wStore "nope" none).calls = [] ∧
        (handleDelete wStore "nope").1.status = 400 ∧
        (handleDelete wStore "nope").1.calls = [] ∧
        (handleDelete wStore "nope").2 = wStore) :=
  ⟨by decide, invalid_id_rejected_400 wStore "nope" none (by decide)⟩

/-- Witness for C5: uploading a five-byte blob with chunk size two
(two full chunks plus a remainder) and reading range 0..4 returns the
blob. -/
theorem uploadFile_roundtrip_witness :
    0 < 2 ∧
      ((getFileStream
          (uploadFile [] wId 2
            { originalname := "b.mp3", mimetype := "audio/mpeg",
              buffer := [1, 2, 3, 4, 5] }).2
          (uploadFile [] wId 2
            { originalname := "b.mp3", mimetype := "audio/mpeg",
              buffer := [1, 2, 3, 4, 5] }).1
          (some 0) (some (some 4))).map (fun chs => chs.flatten)) =
        some [1, 2, 3, 4, 5] :=
  ⟨by decide,
   uploadFile_roundtrip [] wId 2
     { originalname := "b.mp3", mimetype := "audio/mpeg",
       buffer := [1, 2, 3, 4, 5] } (by decide)⟩

/-- Witness for C6: deleting the stored ten-byte object succeeds with
200, after which the metadata lookup is empty, a new download stream
fails with not-found, and a GET answers 404. -/
theorem delete_then_not_found_witness :
    objectIdIsValid wId = true ∧ wStore.lookup wId = some wFile ∧
      ((handleDelete wStore wId).1.status = 200 ∧
        getFileMetadata (handleDelete wStore wId).2 wId = none ∧
        getFileStream (handleDelete wStore wId).2 wId (some 0) none =
          none ∧
        (handleGet (handleDelete wStore wId).2 wId none).status = 404) :=
  ⟨by decide, by decide,
   delete_then_not_found wStore wId wFile none (some 0) none (by decide)
     (by decide)⟩

/-- Counterexample for C7: deleting a syntactically valid id against
an empty store answers 500, not the claimed 200. -/
theorem delete_missing_not_200 :
    ¬ (handleDelete ([] : Store) wId).1.status = 200 ∧
      (handleDelete ([] : Store) wId).1.status = 500 := by decide

/-- Witness for C7 (amended): on an empty store the DELETE of a valid
id answers 500, the store is unchanged, and the bucket delete was
attempted. -/
theorem delete_missing_500_witness :
    objectIdIsValid wId = true ∧ ([] : Store).lookup wId = none ∧
      ((handleDelete ([] : Store) wId).1.status = 500 ∧
        (handleDelete ([] : Store) wId).2 = [] ∧
        (handleDelete ([] : Store) wId).1.calls = [StoreOp.delete]) :=
  ⟨by decide, by decide,
   delete_missing_500 [] wId (by decide) (by decide)⟩

set_option maxRecDepth 4000 in
/-- Counterexample for C8: on the 120-byte video object with Range
bytes=0-99, GET and HEAD produce different response headers: GET sets
Access-Control-Allow-Origin and a Cache-Control value with
stale-while-revalidate, HEAD does not. -/
theorem head_not_identical_to_get :
    ¬ (getH (handleHead wVideoStore wId (some "bytes=0-99"))
          "Access-Control-Allow-Origin" =
        getH (handleGet wVideoStore wId (some "bytes=0-99"))
          "Access-Control-Allow-Origin") ∧
      ¬ (getH (handleHead wVideoStore wId (some "bytes=0-99"))
            "Cache-Control" =
          getH (handleGet wVideoStore wId (some "bytes=0-99"))
            "Cache-Control") := by decide

/-- Counterexample for C10: on the ten-byte audio object, the suffix
form bytes=-100 parses start to NaN yet answers 416, not 206: the
resolved end 100 fails the end comparison. -/
theorem nan_suffix_range_416 :
    (handleGet wStore wId (some "bytes=-100")).status = 416 ∧
      ¬ (handleGet wStore wId (some "bytes=-100")).status = 206 := by
  decide

/-- Witness for C10 (amended): bytes=abc- on the ten-byte object
parses to (NaN, 9); the 206 branch runs and emits Content-Range
bytes NaN-9/10. -/
theorem nan_start_range_behavior_witness :
    objectIdIsValid wId = true ∧ wStore.lookup wId = some wFile ∧
      rangeParts "bytes=abc-" wFile.bytes.length = (none, some 9) ∧
      (((9 : Int) < (wFile.bytes.length : Int) →
        (handleGet wStore wId (some "bytes=abc-")).status = 206 ∧
          getH (handleGet wStore wId (some "bytes=abc-"))
              "Content-Range" = some "bytes NaN-9/10") ∧
        ((wFile.bytes.length : Int) ≤ (9 : Int) →
          (handleGet wStore wId (some "bytes=abc-")).status = 416) ∧
        ¬ (handleGet wStore wId (some "bytes=abc-")).status = 200) :=
  ⟨by decide, by decide, by decide,
   nan_start_range_behavior wStore wId wFile "bytes=abc-" 9 (by decide)
     (by decide) (by decide) (by decide) (by decide)⟩
